import Mathlib

/-!
Shallow embedding of the enrollment/payment workflow implemented in
`src/components/EnrollmentModal.tsx`.

The component's React state is modelled as an explicit `ModalState` record;
each handler of the component becomes a function from state (plus the
outcomes of the external collaborators, which are inputs here) to a new
state, possibly paired with a list of emitted side effects (`Event`).
JavaScript truthiness of optional strings (`x || d`, `!x`) is modelled
explicitly.
-/

namespace EnrollmentModal

/-- JavaScript `String.prototype.trim()`: strip whitespace from both
ends. Defined by structural recursion on the character list so that the
kernel can evaluate it. -/
def jsTrim (s : String) : String :=
  String.mk (((s.data.dropWhile Char.isWhitespace).reverse.dropWhile
    Char.isWhitespace).reverse)

/-- Tail of JavaScript `split(' ')`: split a character list at every
space, accumulating the current chunk in reverse. -/
def jsSplitOnSpaceAux : List Char → List Char → List String
  | [], acc => [String.mk acc.reverse]
  | c :: rest, acc =>
    if c = ' ' then String.mk acc.reverse :: jsSplitOnSpaceAux rest []
    else jsSplitOnSpaceAux rest (c :: acc)

/-- JavaScript `s.split(' ')`. -/
def jsSplitOnSpace (s : String) : List String :=
  jsSplitOnSpaceAux s.data []

/-- JavaScript `toUpperCase()` (ASCII, which covers promo codes). -/
def jsToUpper (s : String) : String :=
  String.mk (s.data.map Char.toUpper)

/-- The five workflow steps of the modal (`type Step` in the source). -/
inductive Step
  | details
  | payment
  | processing
  | success
  | error
  deriving DecidableEq, Repr

/-- The two payment providers (`'eversend' | 'flutterwave'`). -/
inductive PaymentMethod
  | eversend
  | flutterwave
  deriving DecidableEq, Repr

/-- The `formData` record of the component. -/
structure FormData where
  firstName : String
  lastName : String
  email : String
  phoneNumber : String
  acceptTerms : Bool
  deriving DecidableEq, Repr

/-- An applied promo discount (`{ percentage?: number; amount?: number }`). -/
structure PromoDiscount where
  percentage : Option Nat
  amount : Option Nat
  deriving DecidableEq, Repr

/-- The mutable state of one `EnrollmentModal` instance: every `useState`
hook of the component becomes one field. -/
structure ModalState where
  step : Step
  formData : FormData
  coursePrice : Nat
  paymentMethod : PaymentMethod
  errorMessage : Option String
  enrollmentId : Option String
  promoCode : String
  promoValidating : Bool
  promoError : Option String
  promoDiscount : Option PromoDiscount
  finalPrice : Nat
  deriving DecidableEq, Repr

/-- The user profile supplied by the identity collaborator
(`profile?.name`, `profile?.email`). -/
structure Profile where
  name : Option String
  email : Option String
  deriving DecidableEq, Repr

/-- `profile?.name?.split(' ')[i] || ''`. -/
def profilePart (p : Option Profile) (i : Nat) : String :=
  match p with
  | none => ""
  | some pr =>
    match pr.name with
    | none => ""
    | some n => (((jsSplitOnSpace n).get? i).getD "")

/-- `profile?.email || ''`. -/
def profileEmail (p : Option Profile) : String :=
  match p with
  | none => ""
  | some pr => pr.email.getD ""

/-- The default `formData` value (used both by the `useState` initializer
and by `handleClose`'s reset). -/
def defaultFormData (p : Option Profile) : FormData :=
  { firstName := profilePart p 0
    lastName := profilePart p 1
    email := profileEmail p
    phoneNumber := ""
    acceptTerms := false }

/-- The initial component state: every `useState` initializer. -/
def initialState (p : Option Profile) : ModalState :=
  { step := Step.details
    formData := defaultFormData p
    coursePrice := 0
    paymentMethod := PaymentMethod.eversend
    errorMessage := none
    enrollmentId := none
    promoCode := ""
    promoValidating := false
    promoError := none
    promoDiscount := none
    finalPrice := 0 }

/-- JavaScript `x || d` for an optional string `x`: the default wins when
`x` is absent or the empty string. -/
def jsOr (x : Option String) (d : String) : String :=
  match x with
  | none => d
  | some v => if v = "" then d else v

/-- JavaScript `x || null` for an optional string: an empty string is
falsy and collapses to `null`. -/
def jsOrNull (x : Option String) : Option String :=
  match x with
  | none => none
  | some v => if v = "" then none else some v

/-! ### Price fetch (`fetchCoursePrice`, lines 52-76) -/

/-- Outcome of the catalog price query. `returned fetchError data` models a
resolved supabase call: `data` is the row (if any) with its nullable
`course_price`; `thrown` models the query throwing. -/
inductive FetchOutcome
  | thrown
  | returned (fetchError : Option String) (data : Option (Option Nat))
  deriving DecidableEq, Repr

/-- One run of `fetchCoursePrice`: on `!fetchError && data` both prices are
set to `data.course_price || 0`; a thrown error resets both to 0; any
other resolved outcome changes nothing. -/
def fetchCoursePriceStep (s : ModalState) (o : FetchOutcome) : ModalState :=
  match o with
  | FetchOutcome.thrown => { s with coursePrice := 0, finalPrice := 0 }
  | FetchOutcome.returned fetchError data =>
    match fetchError, data with
    | none, some cp => { s with coursePrice := cp.getD 0, finalPrice := cp.getD 0 }
    | _, _ => s

/-! ### Promo validation (`handleValidatePromo`, lines 79-104, and the promo
input's `onChange`, lines 364-375) -/

/-- The result shape of the promo collaborator `validatePromoCode`. -/
structure PromoResult where
  valid : Bool
  final_price : Option Nat
  discount_percentage : Option Nat
  discount_amount : Option Nat
  error : Option String
  deriving DecidableEq, Repr

/-- The synchronous head of `handleValidatePromo`, up to the `await`: an
empty (after trim) code fails locally; otherwise validating is flagged and
the request `(promoCode, coursePrice)` — the values the closure captured —
is issued. -/
def handleValidatePromoStart (s : ModalState) : ModalState × Option (String × Nat) :=
  if jsTrim s.promoCode = "" then
    ({ s with promoError := some "Enter a promo code" }, none)
  else
    ({ s with promoValidating := true, promoError := none }, some (s.promoCode, s.coursePrice))

/-- The continuation of `handleValidatePromo` after the `await`:
`capturedCoursePrice` is the `coursePrice` the closure captured when the
call was issued. The result is applied unconditionally — the current
`promoCode` is never consulted. -/
def handleValidatePromoFinish (capturedCoursePrice : Nat) (r : PromoResult)
    (s : ModalState) : ModalState :=
  match r.valid, r.final_price with
  | true, some fp =>
    { s with promoDiscount := some { percentage := r.discount_percentage
                                     amount := r.discount_amount }
             finalPrice := fp
             promoError := none
             promoValidating := false }
  | _, _ =>
    { s with promoError := some (jsOr r.error "Invalid promo code")
             promoDiscount := none
             finalPrice := capturedCoursePrice
             promoValidating := false }

/-- The promo input's `onChange`: uppercases the typed value, clears the
promo error and any applied discount, and resets `finalPrice` to
`coursePrice`. -/
def promoInputChange (s : ModalState) (value : String) : ModalState :=
  { s with promoCode := jsToUpper value
           promoError := none
           promoDiscount := none
           finalPrice := s.coursePrice }

/-! ### Form input and validation (`handleInputChange`, `validateForm`,
lines 106-132) -/

/-- The named form fields reachable through `handleInputChange`. -/
inductive FormField
  | firstName
  | lastName
  | email
  | phoneNumber
  | acceptTerms
  deriving DecidableEq, Repr

/-- `handleInputChange`: text inputs store `value`, the checkbox stores
`checked`. -/
def handleInputChange (s : ModalState) (f : FormField) (value : String)
    (checked : Bool) : ModalState :=
  { s with formData :=
      match f with
      | FormField.firstName => { s.formData with firstName := value }
      | FormField.lastName => { s.formData with lastName := value }
      | FormField.email => { s.formData with email := value }
      | FormField.phoneNumber => { s.formData with phoneNumber := value }
      | FormField.acceptTerms => { s.formData with acceptTerms := checked } }

/-- The message of the first failing rule of `validateForm`, or `none` when
the form is valid. The rule order is that of the source: first name,
email, phone (only when `coursePrice > 0`), terms. -/
def validateFormMsg (fd : FormData) (coursePrice : Nat) : Option String :=
  if jsTrim fd.firstName = "" then some "First name is required"
  else if jsTrim fd.email = "" then some "Email is required"
  else if coursePrice > 0 && jsTrim fd.phoneNumber = "" then
    some "Phone number is required for paid courses"
  else if !fd.acceptTerms then some "You must accept the terms and conditions"
  else none

/-- `validateForm` as a state transformer: on failure it stores the first
failing rule's message in `errorMessage` and returns `false`; on success it
returns `true` and leaves the state untouched. -/
def validateForm (s : ModalState) : ModalState × Bool :=
  match validateFormMsg s.formData s.coursePrice with
  | some msg => ({ s with errorMessage := some msg }, false)
  | none => (s, true)

/-! ### Payment (`handlePayment`, lines 147-226, and
`handleProceedToPayment`, lines 134-145) -/

/-- A supabase error object, of which `handlePayment`'s preflight probe
inspects the `code` field. -/
structure SupabaseError where
  code : Option String
  deriving DecidableEq, Repr

/-- Outcome of the preflight `student_enrollments` existence probe:
`returned testError` is a resolved query (with its optional error),
`thrown` a query that threw (caught and logged by the source). -/
inductive ProbeOutcome
  | thrown
  | returned (testError : Option SupabaseError)
  deriving DecidableEq, Repr

/-- `testError && testError.code === 'PGRST116'`. -/
def probeSignalsSetupRequired : ProbeOutcome → Bool
  | ProbeOutcome.thrown => false
  | ProbeOutcome.returned none => false
  | ProbeOutcome.returned (some e) => e.code = some "PGRST116"

/-- The result shape of `initiateEnrollment`. -/
structure InitiateResult where
  success : Bool
  enrollmentId : Option String
  paymentUrl : Option String
  error : Option String
  deriving DecidableEq, Repr

/-- Outcome of the `initiateEnrollment` call: a resolved result, or a
throw (whose message is `some m` when the thrown value is an `Error`). -/
inductive InitiateOutcome
  | thrown (msg : Option String)
  | returned (r : InitiateResult)
  deriving DecidableEq, Repr

/-- The record written to `sessionStorage` under `'pendingEnrollment'`
before redirecting. -/
structure PendingRecord where
  enrollmentId : Option String
  courseId : String
  userId : String
  paymentMethod : PaymentMethod
  deriving DecidableEq, Repr

/-- The externally visible effects `handlePayment` can emit, in order of
emission: a `setStep` call, the `initiateEnrollment` call itself, the
`sessionStorage` write, the navigation to the provider URL, and the
scheduled success timeout. -/
inductive Event
  | setStep (st : Step)
  | callInitiate (userId courseId : String) (amount : Nat)
      (email userName phone : String) (useEversend : Bool)
  | writePending (r : PendingRecord)
  | navigate (url : String)
  | scheduleComplete
  deriving DecidableEq, Repr

/-- Recognizes the `initiateEnrollment` call event. -/
def isCallInitiate : Event → Bool
  | Event.callInitiate _ _ _ _ _ _ _ => true
  | _ => false

/-- The error message of the setup-required branch. -/
def setupRequiredMsg : String :=
  "Database setup required. Please run the 3 SQL migrations from the database folder first."

/-- `handlePayment`: guards on the authenticated user, runs the preflight
probe (a PGRST116 error short-circuits to the error step before
`setStep('processing')` is ever reached), then calls `initiateEnrollment`
with `finalPrice` and dispatches on its outcome. Returns the new state and
the ordered list of emitted effects. -/
def handlePayment (s : ModalState) (user : Option String) (courseId : String)
    (probe : ProbeOutcome) (init : InitiateOutcome) : ModalState × List Event :=
  match user with
  | none => ({ s with errorMessage := some "User not authenticated" }, [])
  | some userId =>
    let s0 := { s with errorMessage := none }
    if probeSignalsSetupRequired probe then
      ({ s0 with errorMessage := some setupRequiredMsg, step := Step.error },
       [Event.setStep Step.error])
    else
      let s1 := { s0 with step := Step.processing }
      let userName := jsTrim (s1.formData.firstName ++ " " ++ s1.formData.lastName)
      let callEv := Event.callInitiate userId courseId s1.finalPrice s1.formData.email
        userName s1.formData.phoneNumber (s1.paymentMethod = PaymentMethod.eversend)
      match init with
      | InitiateOutcome.thrown msg =>
        ({ s1 with errorMessage := some (jsOr msg "Payment failed"), step := Step.error },
         [Event.setStep Step.processing, callEv, Event.setStep Step.error])
      | InitiateOutcome.returned r =>
        if r.success = false then
          ({ s1 with errorMessage := some (jsOr r.error "Payment initialization failed")
                     step := Step.error },
           [Event.setStep Step.processing, callEv, Event.setStep Step.error])
        else
          let s2 := { s1 with enrollmentId := jsOrNull r.enrollmentId }
          match r.paymentUrl with
          | none =>
            ({ s2 with step := Step.success },
             [Event.setStep Step.processing, callEv, Event.setStep Step.success,
              Event.scheduleComplete])
          | some url =>
            if url = "" then
              ({ s2 with step := Step.success },
               [Event.setStep Step.processing, callEv, Event.setStep Step.success,
                Event.scheduleComplete])
            else
              (s2, [Event.setStep Step.processing, callEv,
                    Event.writePending { enrollmentId := r.enrollmentId
                                         courseId := courseId
                                         userId := userId
                                         paymentMethod := s2.paymentMethod }
                    , Event.navigate url])

/-- `handleProceedToPayment`: clears the error message, validates the form
(storing the first failure), then for a free course runs `handlePayment`
directly, otherwise steps to the payment-method selection. -/
def handleProceedToPayment (s : ModalState) (user : Option String) (courseId : String)
    (probe : ProbeOutcome) (init : InitiateOutcome) : ModalState × List Event :=
  let s0 := { s with errorMessage := none }
  match validateForm s0 with
  | (s1, false) => (s1, [])
  | (s1, true) =>
    if s1.coursePrice = 0 then handlePayment s1 user courseId probe init
    else ({ s1 with step := Step.payment }, [Event.setStep Step.payment])

/-! ### Close (`handleClose`, lines 228-242) -/

/-- `handleClose`: a no-op while processing; otherwise resets the step to
details, the form to its defaults, and clears `errorMessage` and
`enrollmentId`. The boolean reports whether `onClose` was invoked. -/
def handleClose (p : Option Profile) (s : ModalState) : ModalState × Bool :=
  if s.step = Step.processing then (s, false)
  else
    ({ s with step := Step.details
              formData := defaultFormData p
              errorMessage := none
              enrollmentId := none }, true)

/-! ### The session as a transition system

Every user- or collaborator-driven transition of one modal session, as an
`Action`; `stepA` dispatches to the handler functions above. -/

/-- One atomic state transition of the session. Collaborator outcomes
(fetch result, promo result, probe and initiation outcomes) are carried by
the action, since they are environment inputs. -/
inductive Action
  | fetch (o : FetchOutcome)
  | promoEdit (value : String)
  | promoStart
  | promoFinish (capturedCoursePrice : Nat) (r : PromoResult)
  | input (f : FormField) (value : String) (checked : Bool)
  | choosePayment (m : PaymentMethod)
  | proceed (user : Option String) (courseId : String)
      (probe : ProbeOutcome) (init : InitiateOutcome)
  | pay (user : Option String) (courseId : String)
      (probe : ProbeOutcome) (init : InitiateOutcome)
  | gotoDetails
  | close (p : Option Profile)
  deriving DecidableEq, Repr

/-- Apply one action to the session state. -/
def stepA (s : ModalState) : Action → ModalState
  | Action.fetch o => fetchCoursePriceStep s o
  | Action.promoEdit v => promoInputChange s v
  | Action.promoStart => (handleValidatePromoStart s).1
  | Action.promoFinish cap r => handleValidatePromoFinish cap r s
  | Action.input f v c => handleInputChange s f v c
  | Action.choosePayment m => { s with paymentMethod := m }
  | Action.proceed u cid pr init => (handleProceedToPayment s u cid pr init).1
  | Action.pay u cid pr init => (handlePayment s u cid pr init).1
  | Action.gotoDetails => { s with step := Step.details }
  | Action.close p => (handleClose p s).1

/-- Run a list of actions from a state. -/
def runActions (s : ModalState) : List Action → ModalState
  | [] => s
  | a :: rest => runActions (stepA s a) rest

/-- Side condition on one action: a promo-validation completion must carry
the current base price as its captured price, and a valid result must not
exceed the base price. All other actions are unconstrained. -/
def stepOkB (s : ModalState) : Action → Bool
  | Action.promoFinish cap r =>
    decide (cap = s.coursePrice) &&
      (match r.valid, r.final_price with
       | true, some fp => decide (fp ≤ s.coursePrice)
       | _, _ => true)
  | _ => true

/-- Every action of the trace satisfies `stepOkB` at the state where it
fires. -/
def okTrace : ModalState → List Action → Bool
  | _, [] => true
  | s, a :: rest => stepOkB s a && okTrace (stepA s a) rest

/-- The pricing invariant of the spec: the final price never exceeds the
base price, and equals it whenever no discount is applied. -/
def Inv (s : ModalState) : Prop :=
  s.finalPrice ≤ s.coursePrice ∧ (s.promoDiscount = none → s.finalPrice = s.coursePrice)

instance (s : ModalState) : Decidable (Inv s) := by
  unfold Inv; infer_instance

/-- The sequence of workflow steps observed during one handler run: the
step at entry followed by every `setStep` effect, in emission order. -/
def stepHistory (start : Step) (evs : List Event) : List Step :=
  start :: evs.filterMap (fun e =>
    match e with
    | Event.setStep st => some st
    | _ => none)

/-! ### Frame lemmas: no payment-path handler touches the pricing state -/

theorem handlePayment_pricing_frame (s : ModalState) (u : Option String)
    (cid : String) (pr : ProbeOutcome) (init : InitiateOutcome) :
    (handlePayment s u cid pr init).1.coursePrice = s.coursePrice
    ∧ (handlePayment s u cid pr init).1.finalPrice = s.finalPrice
    ∧ (handlePayment s u cid pr init).1.promoDiscount = s.promoDiscount := by
  cases u with
  | none => simp [handlePayment]
  | some uid =>
    simp only [handlePayment]
    split
    · simp
    · split
      · simp
      · split
        · simp
        · split
          · simp
          · split <;> simp

theorem validateForm_pricing_frame (s : ModalState) :
    (validateForm s).1.coursePrice = s.coursePrice
    ∧ (validateForm s).1.finalPrice = s.finalPrice
    ∧ (validateForm s).1.promoDiscount = s.promoDiscount := by
  simp only [validateForm]
  split <;> simp_all

theorem handleProceedToPayment_pricing_frame (s : ModalState) (u : Option String)
    (cid : String) (pr : ProbeOutcome) (init : InitiateOutcome) :
    (handleProceedToPayment s u cid pr init).1.coursePrice = s.coursePrice
    ∧ (handleProceedToPayment s u cid pr init).1.finalPrice = s.finalPrice
    ∧ (handleProceedToPayment s u cid pr init).1.promoDiscount = s.promoDiscount := by
  simp only [handleProceedToPayment, validateForm]
  split <;> rename_i heq
  · split at heq
    · cases heq; simp
    · cases heq
  · split at heq
    · cases heq
    · cases heq
      split
      · exact handlePayment_pricing_frame _ u cid pr init
      · simp

/-- One `stepOkB`-constrained action preserves the pricing invariant. -/
theorem inv_step (s : ModalState) (a : Action) (hInv : Inv s)
    (hOk : stepOkB s a = true) : Inv (stepA s a) := by
  obtain ⟨hle, heq⟩ := hInv
  cases a with
  | fetch o =>
    cases o with
    | thrown => exact ⟨Nat.le_refl 0, fun _ => rfl⟩
    | returned fe d =>
      cases fe with
      | some e => exact ⟨hle, heq⟩
      | none =>
        cases d with
        | none => exact ⟨hle, heq⟩
        | some cp => exact ⟨Nat.le_refl _, fun _ => rfl⟩
  | promoEdit v => exact ⟨Nat.le_refl _, fun _ => rfl⟩
  | promoStart =>
    simp only [stepA, handleValidatePromoStart]
    split <;> exact ⟨hle, heq⟩
  | promoFinish cap r =>
    simp only [stepOkB, Bool.and_eq_true, decide_eq_true_eq] at hOk
    obtain ⟨hcap, hfp⟩ := hOk
    simp only [stepA, handleValidatePromoFinish]
    split
    · rename_i fp hv hfpr
      refine ⟨?_, fun h => by simp at h⟩
      rw [hv, hfpr] at hfp
      simpa using hfp
    · exact ⟨hcap ▸ Nat.le_refl _, fun _ => hcap⟩
  | input f v c => cases f <;> exact ⟨hle, heq⟩
  | choosePayment m => exact ⟨hle, heq⟩
  | proceed u cid pr init =>
    obtain ⟨h1, h2, h3⟩ := handleProceedToPayment_pricing_frame s u cid pr init
    exact ⟨h1 ▸ h2 ▸ hle, fun h => h1 ▸ h2 ▸ heq (h3 ▸ h)⟩
  | pay u cid pr init =>
    obtain ⟨h1, h2, h3⟩ := handlePayment_pricing_frame s u cid pr init
    exact ⟨h1 ▸ h2 ▸ hle, fun h => h1 ▸ h2 ▸ heq (h3 ▸ h)⟩
  | gotoDetails => exact ⟨hle, heq⟩
  | close p =>
    simp only [stepA, handleClose]
    split <;> exact ⟨hle, heq⟩

/-- The pricing invariant holds along every `okTrace` run. -/
theorem inv_runActions (s : ModalState) (acts : List Action) (hInv : Inv s)
    (hOk : okTrace s acts = true) : Inv (runActions s acts) := by
  induction acts generalizing s with
  | nil => exact hInv
  | cons a rest ih =>
    simp only [okTrace, Bool.and_eq_true] at hOk
    exact ih (stepA s a) (inv_step s a hInv hOk.1) hOk.2

/-! ### Concrete fixtures used by witnesses and counterexamples -/

/-- A session in which the price fetch returned 100 and the promo field
holds "A". -/
def cexStateA : ModalState :=
  runActions (initialState none)
    [Action.fetch (FetchOutcome.returned none (some (some 100))), Action.promoEdit "a"]

/-- A valid promo result discounting to 80. -/
def cexValidResult80 : PromoResult :=
  { valid := true
    final_price := some 80
    discount_percentage := some 20
    discount_amount := none
    error := none }

/-- `cexStateA` after a validation for "A" was issued and the field was
then edited to "B". -/
def cexStateB : ModalState :=
  promoInputChange (handleValidatePromoStart cexStateA).1 "B"

/-- `cexStateA` moved to the payment-selection step. -/
def cexPayState : ModalState :=
  { cexStateA with step := Step.payment }

/-- `cexStateA` while processing. -/
def cexProcState : ModalState :=
  { cexStateA with step := Step.processing }

/-- A probe that resolved with the `PGRST116` error code. -/
def cexProbeNotFound : ProbeOutcome :=
  ProbeOutcome.returned (some { code := some "PGRST116" })

/-- A probe that resolved without error. -/
def cexProbeClean : ProbeOutcome :=
  ProbeOutcome.returned none

/-- An initiation result that completed without a redirect. -/
def cexInitOk : InitiateOutcome :=
  InitiateOutcome.returned
    { success := true, enrollmentId := some "E1", paymentUrl := none, error := none }

/-- An initiation result demanding a redirect. -/
def cexRedirectResult : InitiateResult :=
  { success := true
    enrollmentId := some "E1"
    paymentUrl := some "https://pay/x"
    error := none }

/-- A form passing every unconditional rule, with an empty phone number. -/
def cexFormOk : FormData :=
  { firstName := "Ada"
    lastName := ""
    email := "a@b.c"
    phoneNumber := ""
    acceptTerms := true }

/-! ### Claim C1 — promo staleness -/

/-- Claim C1, counterexample: a validation for "A" is issued from a session
priced at 100, the field is then edited to "B", and when "A"'s valid result
(final price 80) arrives it is applied anyway: `finalPrice` drops from 100
to 80 and a discount is installed, although the originating code "A" no
longer equals the field value "B". -/
theorem stale_promo_result_still_applied :
    (handleValidatePromoStart cexStateA).2 = some ("A", 100)
    ∧ cexStateB.promoCode = "B"
    ∧ cexStateB.finalPrice = 100
    ∧ cexStateB.promoDiscount = none
    ∧ (handleValidatePromoFinish 100 cexValidResult80 cexStateB).finalPrice = 80
    ∧ (handleValidatePromoFinish 100 cexValidResult80 cexStateB).promoDiscount ≠ none := by
  decide

/-- Claim C1 (amended): `handleValidatePromo` performs no staleness check.
A valid validation result is applied on arrival in every state — in
particular also when the current field value differs from the code the
call was issued for — setting `finalPrice` to the result's price and
installing its discount. -/
theorem promo_result_applied_unconditionally (cap : Nat) (r : PromoResult)
    (fp : Nat) (s : ModalState) (hv : r.valid = true) (hf : r.final_price = some fp) :
    (handleValidatePromoFinish cap r s).finalPrice = fp
    ∧ (handleValidatePromoFinish cap r s).promoDiscount
      = some { percentage := r.discount_percentage, amount := r.discount_amount } := by
  unfold handleValidatePromoFinish
  rw [hv, hf]
  exact ⟨rfl, rfl⟩

/-- Witness for C1's amended theorem at the concrete stale interleaving. -/
theorem promo_result_applied_unconditionally_witness :
    (handleValidatePromoFinish 100 cexValidResult80 cexStateB).finalPrice = 80
    ∧ (handleValidatePromoFinish 100 cexValidResult80 cexStateB).promoDiscount
      = some { percentage := some 20, amount := none } :=
  promo_result_applied_unconditionally 100 cexValidResult80 80 cexStateB
    (by decide) (by decide)

/-! ### Claim C4 — fail-open pricing -/

/-- The session after a successful fetch of 50000, a close, and a reopen
whose fetch resolved with an error. -/
def cexStaleFetch : ModalState :=
  runActions (initialState none)
    [Action.fetch (FetchOutcome.returned none (some (some 50000))),
     Action.close none,
     Action.fetch (FetchOutcome.returned (some "FetchError") none)]

/-- Claim C4, counterexample: after a fetch that resolved with an error,
`coursePrice` and `finalPrice` are not 0 — they keep the 50000 from the
previous successful fetch, because the error-return path changes
nothing. -/
theorem fetch_error_leaves_stale_price :
    cexStaleFetch.coursePrice = 50000
    ∧ cexStaleFetch.finalPrice = 50000
    ∧ ¬(cexStaleFetch.coursePrice = 0 ∧ cexStaleFetch.finalPrice = 0) := by
  decide

/-- Claim C4 (amended): only a *thrown* fetch failure resets both prices
to 0; a fetch that *returns* an error (or no row) leaves both prices
unchanged. Hence on a fresh session — where both start at 0 — any failing
fetch leaves `coursePrice = finalPrice = 0`, but not in general. -/
theorem fetch_failure_pricing (s : ModalState) (e : String)
    (d : Option (Option Nat)) (p : Option Profile) :
    fetchCoursePriceStep s FetchOutcome.thrown
      = { s with coursePrice := 0, finalPrice := 0 }
    ∧ fetchCoursePriceStep s (FetchOutcome.returned (some e) d) = s
    ∧ fetchCoursePriceStep s (FetchOutcome.returned none none) = s
    ∧ (fetchCoursePriceStep (initialState p) (FetchOutcome.returned (some e) d)).coursePrice = 0
    ∧ (fetchCoursePriceStep (initialState p) (FetchOutcome.returned (some e) d)).finalPrice = 0
    ∧ (fetchCoursePriceStep (initialState p) FetchOutcome.thrown).coursePrice = 0
    ∧ (fetchCoursePriceStep (initialState p) FetchOutcome.thrown).finalPrice = 0 := by
  cases d <;> exact ⟨rfl, rfl, rfl, rfl, rfl, rfl, rfl⟩

/-! ### Claim C5 — form validation order -/

/-- Claim C5: the validation rules fire in the fixed order first name,
email, phone (only for a positive price), terms, with the first failure
winning; a price-0 form with empty phone but all other rules satisfied
validates, while the same form fails with the phone message for any
positive price; and validation never changes the form fields. -/
theorem validateForm_rules (fd : FormData) (cp : Nat) (s : ModalState) :
    (jsTrim fd.firstName = "" →
      validateFormMsg fd cp = some "First name is required")
    ∧ (jsTrim fd.firstName ≠ "" → jsTrim fd.email = "" →
      validateFormMsg fd cp = some "Email is required")
    ∧ (jsTrim fd.firstName ≠ "" → jsTrim fd.email ≠ "" → 0 < cp →
      jsTrim fd.phoneNumber = "" →
      validateFormMsg fd cp = some "Phone number is required for paid courses")
    ∧ (jsTrim fd.firstName ≠ "" → jsTrim fd.email ≠ "" →
      (cp = 0 ∨ jsTrim fd.phoneNumber ≠ "") → fd.acceptTerms = false →
      validateFormMsg fd cp = some "You must accept the terms and conditions")
    ∧ (jsTrim fd.firstName ≠ "" → jsTrim fd.email ≠ "" →
      (cp = 0 ∨ jsTrim fd.phoneNumber ≠ "") → fd.acceptTerms = true →
      validateFormMsg fd cp = none)
    ∧ (validateForm s).1.formData = s.formData := by
  refine ⟨?_, ?_, ?_, ?_, ?_, ?_⟩
  · intro h1
    simp [validateFormMsg, h1]
  · intro h1 h2
    simp [validateFormMsg, h1, h2]
  · intro h1 h2 h3 h4
    simp [validateFormMsg, h1, h2, h3, h4]
  · intro h1 h2 h3 h4
    rcases h3 with h3 | h3 <;> simp [validateFormMsg, h1, h2, h3, h4]
  · intro h1 h2 h3 h4
    rcases h3 with h3 | h3 <;> simp [validateFormMsg, h1, h2, h3, h4]
  · simp only [validateForm]
    split <;> simp

/-- Witness for C5 at a concrete form: with price 0 the empty phone number
passes, with price 1 it is rejected with the phone message. -/
theorem validateForm_rules_witness :
    validateFormMsg cexFormOk 0 = none
    ∧ validateFormMsg cexFormOk 1 = some "Phone number is required for paid courses" :=
  ⟨(validateForm_rules cexFormOk 0 (initialState none)).2.2.2.2.1
      (by decide) (by decide) (Or.inl rfl) (by decide),
   (validateForm_rules cexFormOk 1 (initialState none)).2.2.1
      (by decide) (by decide) (by decide) (by decide)⟩

/-! ### Claim C2 — setup-required short-circuit -/

/-- Claim C2, counterexample: from the payment-selection step, a probe
reporting `PGRST116` yields the failed step with the setup message and no
initiation call — but the observed step history is
`[payment, error]`: the workflow never passes through `processing`, so the
failure is not reached "directly from the Processing state". -/
theorem setup_required_reached_without_processing :
    (handlePayment cexPayState (some "U1") "c1" cexProbeNotFound cexInitOk).1.step = Step.error
    ∧ (handlePayment cexPayState (some "U1") "c1" cexProbeNotFound cexInitOk).1.errorMessage
      = some setupRequiredMsg
    ∧ ((handlePayment cexPayState (some "U1") "c1" cexProbeNotFound cexInitOk).2.any
        isCallInitiate) = false
    ∧ stepHistory cexPayState.step
        (handlePayment cexPayState (some "U1") "c1" cexProbeNotFound cexInitOk).2
      = [Step.payment, Step.error]
    ∧ Step.processing ∉ stepHistory cexPayState.step
        (handlePayment cexPayState (some "U1") "c1" cexProbeNotFound cexInitOk).2 := by
  decide

/-- Claim C2 (amended): when the probe reports `PGRST116`,
`initiateEnrollment` is never called and the workflow reaches the failed
step with the setup-required message directly from the step the submission
was made in (details for a free course, payment selection for a paid one),
never entering the processing step. -/
theorem setup_required_short_circuit (s : ModalState) (uid cid : String)
    (pr : ProbeOutcome) (init : InitiateOutcome)
    (h : probeSignalsSetupRequired pr = true) :
    (handlePayment s (some uid) cid pr init).1.step = Step.error
    ∧ (handlePayment s (some uid) cid pr init).1.errorMessage = some setupRequiredMsg
    ∧ (handlePayment s (some uid) cid pr init).2 = [Event.setStep Step.error]
    ∧ ((handlePayment s (some uid) cid pr init).2.any isCallInitiate) = false
    ∧ stepHistory s.step (handlePayment s (some uid) cid pr init).2 = [s.step, Step.error]
    ∧ (s.step ≠ Step.processing →
        Step.processing ∉ stepHistory s.step (handlePayment s (some uid) cid pr init).2) := by
  have htr : (handlePayment s (some uid) cid pr init).2 = [Event.setStep Step.error] := by
    simp [handlePayment, h]
  have hst : (handlePayment s (some uid) cid pr init).1.step = Step.error := by
    simp [handlePayment, h]
  have hmsg : (handlePayment s (some uid) cid pr init).1.errorMessage
      = some setupRequiredMsg := by
    simp [handlePayment, h]
  refine ⟨hst, hmsg, htr, ?_, ?_, ?_⟩
  · rw [htr]; rfl
  · rw [htr]; rfl
  · intro hs
    rw [htr]
    simp [stepHistory, List.mem_cons, hs, Ne.symm hs]

/-- Witness for C2's amended theorem: the free-course submission path
(details step) with a `PGRST116` probe. -/
theorem setup_required_short_circuit_witness :
    (handlePayment cexStateA (some "U1") "c1" cexProbeNotFound cexInitOk).1.step = Step.error
    ∧ (handlePayment cexStateA (some "U1") "c1" cexProbeNotFound cexInitOk).1.errorMessage
      = some setupRequiredMsg
    ∧ ((handlePayment cexStateA (some "U1") "c1" cexProbeNotFound cexInitOk).2.any
        isCallInitiate) = false := by
  have h := setup_required_short_circuit cexStateA "U1" "c1" cexProbeNotFound cexInitOk
    (by decide)
  exact ⟨h.1, h.2.1, h.2.2.2.1⟩

/-! ### Claim C3 — redirect hand-off -/

/-- Claim C3: whenever initiation succeeds with a (truthy) `paymentUrl`,
the emitted effects are exactly: enter processing, call
`initiateEnrollment`, write the pending-enrollment record — whose
`enrollmentId` is the one initiation returned and whose course, user and
payment method are the session's — and only then navigate to the URL; in
particular the write is at position 2 and the navigation at position 3 of
the effect list. -/
theorem redirect_writes_pending_before_navigation (s : ModalState) (uid cid : String)
    (pr : ProbeOutcome) (r : InitiateResult) (url : String)
    (hpr : probeSignalsSetupRequired pr = false)
    (hs : r.success = true) (hurl : r.paymentUrl = some url) (hne : url ≠ "") :
    (handlePayment s (some uid) cid pr (InitiateOutcome.returned r)).2
      = [Event.setStep Step.processing,
         Event.callInitiate uid cid s.finalPrice s.formData.email
           (jsTrim (s.formData.firstName ++ " " ++ s.formData.lastName))
           s.formData.phoneNumber (decide (s.paymentMethod = PaymentMethod.eversend)),
         Event.writePending
           { enrollmentId := r.enrollmentId, courseId := cid,
             userId := uid, paymentMethod := s.paymentMethod },
         Event.navigate url]
    ∧ (handlePayment s (some uid) cid pr (InitiateOutcome.returned r)).2.get? 2
      = some (Event.writePending
          { enrollmentId := r.enrollmentId, courseId := cid,
            userId := uid, paymentMethod := s.paymentMethod })
    ∧ (handlePayment s (some uid) cid pr (InitiateOutcome.returned r)).2.get? 3
      = some (Event.navigate url) := by
  simp [handlePayment, hpr, hs, hurl, hne]

/-- Witness for C3 at the concrete redirect outcome
`{enrollmentId: "E1", paymentUrl: "https://pay/x"}`. -/
theorem redirect_writes_pending_before_navigation_witness :
    (handlePayment cexPayState (some "U1") "c1" cexProbeClean
      (InitiateOutcome.returned cexRedirectResult)).2.get? 2
      = some (Event.writePending
          { enrollmentId := some "E1", courseId := "c1", userId := "U1",
            paymentMethod := PaymentMethod.eversend })
    ∧ (handlePayment cexPayState (some "U1") "c1" cexProbeClean
        (InitiateOutcome.returned cexRedirectResult)).2.get? 3
      = some (Event.navigate "https://pay/x") := by
  have h := redirect_writes_pending_before_navigation cexPayState "U1" "c1" cexProbeClean
    cexRedirectResult "https://pay/x" (by decide) (by decide) (by decide) (by decide)
  exact ⟨h.2.1, h.2.2⟩

/-! ### Claim C6 — missing authentication -/

/-- Claim C6, counterexample: with no authenticated user the handler sets
the error message but leaves the step unchanged (here: payment selection);
the workflow does not reach the failed step. -/
theorem not_authenticated_no_failed_state :
    (handlePayment cexPayState none "c1" cexProbeClean cexInitOk).1.step = Step.payment
    ∧ (handlePayment cexPayState none "c1" cexProbeClean cexInitOk).1.step ≠ Step.error
    ∧ (handlePayment cexPayState none "c1" cexProbeClean cexInitOk).1.errorMessage
      = some "User not authenticated" := by
  decide

/-- Claim C6 (amended): with no authenticated user, payment initiation is
aborted before any effect — no initiation call, no step transition — and
the condition is surfaced only through `errorMessage`; the session stays
in its current step instead of reaching the failed step. -/
theorem not_authenticated_aborts_in_place (s : ModalState) (cid : String)
    (pr : ProbeOutcome) (init : InitiateOutcome) :
    (handlePayment s none cid pr init).1.step = s.step
    ∧ (handlePayment s none cid pr init).1.errorMessage = some "User not authenticated"
    ∧ (handlePayment s none cid pr init).2 = []
    ∧ (handlePayment s none cid pr init).1
      = { s with errorMessage := some "User not authenticated" } :=
  ⟨rfl, rfl, rfl, rfl⟩

/-! ### Claim C10 — thrown probe is swallowed -/

/-- Whenever the probe does not signal the missing table,
`initiateEnrollment` is called. -/
theorem handlePayment_calls_initiate (s : ModalState) (uid cid : String)
    (pr : ProbeOutcome) (init : InitiateOutcome)
    (h : probeSignalsSetupRequired pr = false) :
    ((handlePayment s (some uid) cid pr init).2.any isCallInitiate) = true := by
  simp only [handlePayment, h, Bool.false_eq_true, if_false]
  cases init with
  | thrown m => simp [isCallInitiate]
  | returned r =>
    simp only []
    split
    · simp [isCallInitiate]
    · split
      · simp [isCallInitiate]
      · split <;> simp [isCallInitiate]

/-- Claim C10: a probe that throws is caught: the run is identical to one
whose probe resolved without error and `initiateEnrollment` is still
called; conversely, the only probe outcomes that suppress the initiation
call are those resolving with the `PGRST116` error code. -/
theorem probe_exception_swallowed (s : ModalState) (uid cid : String)
    (init : InitiateOutcome) :
    handlePayment s (some uid) cid ProbeOutcome.thrown init
      = handlePayment s (some uid) cid (ProbeOutcome.returned none) init
    ∧ ((handlePayment s (some uid) cid ProbeOutcome.thrown init).2.any isCallInitiate) = true
    ∧ ∀ pr : ProbeOutcome,
        ((handlePayment s (some uid) cid pr init).2.any isCallInitiate) = false →
        ∃ e : SupabaseError, pr = ProbeOutcome.returned (some e)
          ∧ e.code = some "PGRST116" := by
  refine ⟨rfl, handlePayment_calls_initiate s uid cid ProbeOutcome.thrown init rfl, ?_⟩
  intro pr hany
  cases pr with
  | thrown =>
    rw [handlePayment_calls_initiate s uid cid ProbeOutcome.thrown init rfl] at hany
    cases hany
  | returned te =>
    cases te with
    | none =>
      rw [handlePayment_calls_initiate s uid cid (ProbeOutcome.returned none) init rfl] at hany
      cases hany
    | some e =>
      by_cases hc : e.code = some "PGRST116"
      · exact ⟨e, rfl, hc⟩
      · rw [handlePayment_calls_initiate s uid cid (ProbeOutcome.returned (some e)) init
          (by simp [probeSignalsSetupRequired, hc])] at hany
        cases hany

/-- Witness for C10: the thrown-probe run from the concrete payment state
equals the clean-probe run, and the suppressing probe outcome exists for
the concrete `PGRST116` probe. -/
theorem probe_exception_swallowed_witness :
    handlePayment cexPayState (some "U1") "c1" ProbeOutcome.thrown cexInitOk
      = handlePayment cexPayState (some "U1") "c1" cexProbeClean cexInitOk
    ∧ ∃ e : SupabaseError, cexProbeNotFound = ProbeOutcome.returned (some e)
        ∧ e.code = some "PGRST116" :=
  ⟨(probe_exception_swallowed cexPayState "U1" "c1" cexInitOk).1,
   (probe_exception_swallowed cexPayState "U1" "c1" cexInitOk).2.2 cexProbeNotFound
     (by decide)⟩

/-! ### Claim C7 — close guard and reset -/

/-- Claim C7: close is refused exactly while processing; from every other
step it reports the close, returns the step to details and resets the form
to its profile-derived defaults (empty phone, terms unchecked), and a
second close right after yields the identical default form. -/
theorem close_guard_and_reset (p : Option Profile) (s : ModalState) :
    (s.step = Step.processing → handleClose p s = (s, false))
    ∧ (s.step ≠ Step.processing →
        (handleClose p s).2 = true
        ∧ (handleClose p s).1.step = Step.details
        ∧ (handleClose p s).1.formData = defaultFormData p
        ∧ (handleClose p s).1.formData.phoneNumber = ""
        ∧ (handleClose p s).1.formData.acceptTerms = false
        ∧ (handleClose p (handleClose p s).1).1.formData = (handleClose p s).1.formData) := by
  constructor
  · intro h
    simp [handleClose, h]
  · intro h
    simp [handleClose, h, defaultFormData]

/-- Witness for C7: close is refused from the concrete processing state and
succeeds — twice, idempotently — from the concrete payment state. -/
theorem close_guard_and_reset_witness :
    handleClose none cexProcState = (cexProcState, false)
    ∧ (handleClose none cexPayState).1.formData = defaultFormData none
    ∧ (handleClose none (handleClose none cexPayState).1).1.formData
      = (handleClose none cexPayState).1.formData :=
  ⟨(close_guard_and_reset none cexProcState).1 rfl,
   ((close_guard_and_reset none cexPayState).2 (by decide)).2.2.1,
   ((close_guard_and_reset none cexPayState).2 (by decide)).2.2.2.2.2⟩

/-! ### Claim C9 — close leaves promo and pricing state alone -/

/-- Claim C9: a successful close resets exactly the step, the form, the
error message and the enrollment id; the promo state (`promoCode`,
`promoDiscount`, `promoError`, `promoValidating`) and the pricing state
(`coursePrice`, `finalPrice`), as well as the payment method, are left
unchanged, so an applied discount persists into the next session of the
same instance. -/
theorem close_preserves_promo_and_pricing (p : Option Profile) (s : ModalState)
    (h : s.step ≠ Step.processing) :
    (handleClose p s).1.promoCode = s.promoCode
    ∧ (handleClose p s).1.promoDiscount = s.promoDiscount
    ∧ (handleClose p s).1.promoError = s.promoError
    ∧ (handleClose p s).1.promoValidating = s.promoValidating
    ∧ (handleClose p s).1.coursePrice = s.coursePrice
    ∧ (handleClose p s).1.finalPrice = s.finalPrice
    ∧ (handleClose p s).1.paymentMethod = s.paymentMethod
    ∧ (handleClose p s).1.step = Step.details
    ∧ (handleClose p s).1.formData = defaultFormData p
    ∧ (handleClose p s).1.errorMessage = none
    ∧ (handleClose p s).1.enrollmentId = none := by
  simp [handleClose, h]

/-- A session holding an applied discount (base 100, final 80). -/
def cexDiscounted : ModalState :=
  handleValidatePromoFinish 100 cexValidResult80 cexStateA

/-- Witness for C9: closing the discounted session keeps the discount, the
final price 80 and the base price 100. -/
theorem close_preserves_promo_and_pricing_witness :
    (handleClose none cexDiscounted).1.promoDiscount
      = some { percentage := some 20, amount := none }
    ∧ (handleClose none cexDiscounted).1.finalPrice = 80
    ∧ (handleClose none cexDiscounted).1.coursePrice = 100 := by
  have h := close_preserves_promo_and_pricing none cexDiscounted (by decide)
  exact ⟨h.2.1.trans (by decide), h.2.2.2.2.2.1.trans (by decide),
    h.2.2.2.2.1.trans (by decide)⟩

/-! ### Claim C8 — pricing invariant -/

/-- A valid promo result whose final price 150 exceeds the base 100. -/
def cexOverResult : PromoResult :=
  { valid := true
    final_price := some 150
    discount_percentage := some 20
    discount_amount := none
    error := none }

/-- The session after the fetch of 100, entering code "SAVE20", starting
validation, and applying the collaborator's result of 150. -/
def cexOverrun : ModalState :=
  runActions (initialState none)
    [Action.fetch (FetchOutcome.returned none (some (some 100))),
     Action.promoEdit "save20", Action.promoStart,
     Action.promoFinish 100 cexOverResult]

/-- Claim C8, counterexample: the handler installs the collaborator's
final price without bounding it by the base price, so a valid result
carrying 150 against base 100 leaves the session with
`finalPrice = 150 > 100 = coursePrice`: the invariant does not hold at all
times. -/
theorem final_price_exceeds_base :
    cexOverrun.coursePrice = 100
    ∧ cexOverrun.finalPrice = 150
    ∧ cexOverrun.promoDiscount ≠ none
    ∧ ¬ Inv cexOverrun := by
  decide

/-- Claim C8 (amended): along every run whose applied promo results are
genuine discounts — each completion carries the current base price and a
valid result never exceeds it (`okTrace`) — the invariant holds:
`finalPrice ≤ coursePrice`, with equality whenever no discount is
applied. Unconditionally, any edit of the promo input drops the discount
and resets `finalPrice` to `coursePrice`, and every `initiateEnrollment`
call is made with the session's `finalPrice` as its amount. -/
theorem pricing_invariant_conditional :
    (∀ (p : Option Profile) (acts : List Action),
      okTrace (initialState p) acts = true → Inv (runActions (initialState p) acts))
    ∧ (∀ (s : ModalState) (v : String),
      (promoInputChange s v).promoDiscount = none
      ∧ (promoInputChange s v).finalPrice = s.coursePrice)
    ∧ (∀ (s : ModalState) (u : Option String) (cid : String) (pr : ProbeOutcome)
        (init : InitiateOutcome) (uid c : String) (amt : Nat) (em nm ph : String)
        (ev : Bool),
      Event.callInitiate uid c amt em nm ph ev ∈ (handlePayment s u cid pr init).2 →
      amt = s.finalPrice) := by
  refine ⟨?_, ?_, ?_⟩
  · intro p acts hOk
    exact inv_runActions _ acts ⟨Nat.le_refl 0, fun _ => rfl⟩ hOk
  · intro s v
    exact ⟨rfl, rfl⟩
  · intro s u cid pr init uid c amt em nm ph ev hmem
    cases u with
    | none => simp [handlePayment] at hmem
    | some uid2 =>
      cases init with
      | thrown m =>
        simp only [handlePayment] at hmem
        split at hmem
        · simp at hmem
        · simp at hmem
          exact hmem.2.2.1
      | returned r =>
        simp only [handlePayment] at hmem
        split at hmem
        · simp at hmem
        · split at hmem
          · simp at hmem
            exact hmem.2.2.1
          · split at hmem
            · simp at hmem
              exact hmem.2.2.1
            · split at hmem
              · simp at hmem
                exact hmem.2.2.1
              · simp at hmem
                exact hmem.2.2.1

/-- Witness for C8 at a concrete well-behaved run (base 100, discount to
80) and a concrete initiation call with amount 100. -/
theorem pricing_invariant_conditional_witness :
    Inv (runActions (initialState none)
      [Action.fetch (FetchOutcome.returned none (some (some 100))),
       Action.promoEdit "SAVE20", Action.promoStart,
       Action.promoFinish 100 cexValidResult80])
    ∧ (100 : Nat) = cexPayState.finalPrice :=
  ⟨pricing_invariant_conditional.1 none _ (by decide),
   pricing_invariant_conditional.2.2 cexPayState (some "U1") "c1" cexProbeClean cexInitOk
     "U1" "c1" 100 "" "" "" true (by decide)⟩

end EnrollmentModal
